import Mathlib

/-!
Verification of the kshana-desktop backend packaging workflow
(`backend-build/build.py`, `backend-build/entry.py`,
`backend-build/pyi_rth_google_adk_tools.py`).

The scripts are orchestration glue: they stage a backend source tree
(copy or git clone), provision a virtual environment, and invoke
PyInstaller.  We embed them shallowly:

* the filesystem is an existence map `FS : String → Bool` over the
  handful of fixed paths the script touches (each directory is treated
  as an atomic node; `shutil.rmtree`, `shutil.copytree`, `mkdir` and
  `git clone` flip existence bits);
* every external effect (subprocess call, tree copy/removal, print of
  an informational notice) is recorded as an `Event` in a trace, in
  program order;
* exceptions (`RuntimeError`, `FileNotFoundError`) become an
  `Except BuildError` result; a raising step returns the filesystem and
  trace accumulated up to the raise point;
* the version reported by the candidate interpreter, and the host
  operating system string `platform.system()`, are inputs of the model
  (in the script they come from subprocesses / the platform module);
* `argparse.Namespace` becomes the record `Args`; the script mutates it
  in place, which the model renders by returning the updated record.
-/

namespace KshanaDesktop

/-- `REPO_URL` of build.py. -/
def REPO_URL : String := "https://github.com/anveshane/kshana.git"

/-- `ROOT` of build.py: the directory holding the build script. -/
def ROOT : String := "/kshana-desktop/backend-build"

/-- `BACKEND_SRC_DIR = ROOT / "kshana"`: the staging location. -/
def BACKEND_SRC_DIR : String := ROOT ++ "/kshana"

/-- `DIST_DIR = ROOT / "dist"`. -/
def DIST_DIR : String := ROOT ++ "/dist"

/-- `BUILD_DIR = ROOT / "build-artifacts"`. -/
def BUILD_DIR : String := ROOT ++ "/build-artifacts"

/-- `SPEC_PATH = ROOT / "kshana.spec"`. -/
def SPEC_PATH : String := ROOT ++ "/kshana.spec"

/-- `REQUIREMENTS_PATH = ROOT / "requirements.txt"`. -/
def REQUIREMENTS_PATH : String := ROOT ++ "/requirements.txt"

/-- `VENV_PATH = ROOT / ".venv"`. -/
def VENV_PATH : String := ROOT ++ "/.venv"

/-- `ROOT.parent.parent / "kshana"`: the sibling checkout that
`ensure_backend_sources` silently adopts when present (build.py line 94). -/
def LOCAL_CANDIDATE : String := "/kshana"

/-- The command-line record produced by `parse_args` (an
`argparse.Namespace`; `--ref` defaults to `"main"`, `--platform` to
`"auto"`). -/
structure Args where
  source_path : Option String
  ref : String
  platform : String
  clean : Bool
  python : String
  deriving DecidableEq, Repr

/-- The filesystem as an existence map: `fs p = true` iff path `p`
exists. -/
def FS : Type := String → Bool

/-- Record that path `p` now exists (`b = true`) or no longer does. -/
def FS.set (fs : FS) (p : String) (b : Bool) : FS :=
  fun q => if q = p then b else fs q

/-- Observable effects of the workflow, in program order. -/
inductive Event where
  /-- `run(["git", "clone", url, dst])`. -/
  | clone (url dst : String)
  /-- `run(["git", "checkout", r], cwd=BACKEND_SRC_DIR)`. -/
  | checkout (r : String)
  /-- `shutil.copytree(src, dst, ignore=...)`. -/
  | copytree (src dst : String)
  /-- `shutil.rmtree(p)`. -/
  | rmtree (p : String)
  /-- `Path(p).mkdir(parents=True, exist_ok=True)`. -/
  | mkdir (p : String)
  /-- an informational `print`. -/
  | note (msg : String)
  /-- `subprocess.check_output([cmd, "-c", ...version query...])`. -/
  | queryVersion (cmd : String)
  /-- `run([cmd, "-m", "venv", p])`. -/
  | venvCreate (cmd p : String)
  /-- a `run([python_bin, "-m", "pip", ...])` invocation. -/
  | pip (cmd : List String)
  /-- the PyInstaller invocation: interpreter, `--distpath`, `--workpath`,
  spec file, and the `PYTHONPATH` passed in its environment. -/
  | bundler (python_bin distpath workpath spec pythonpath : String)
  deriving DecidableEq, Repr

/-- The two exception classes the script raises itself. -/
inductive BuildError where
  /-- `RuntimeError(msg)`. -/
  | runtimeError (msg : String)
  /-- `FileNotFoundError(msg)`. -/
  | fileNotFound (msg : String)
  deriving DecidableEq, Repr

/-- Result of the source-acquisition stage: the (possibly mutated)
`args`, the filesystem, the trace, and normal or exceptional exit. -/
structure AcqResult where
  args : Args
  fs : FS
  trace : List Event
  out : Except BuildError Unit

/-- Result of the provisioning stage: on success `out` carries
`python_bin`, the interpreter path inside the virtual environment. -/
structure VenvResult where
  fs : FS
  trace : List Event
  out : Except BuildError String

/-- Result of the whole `main()` pipeline. -/
structure MainResult where
  args : Args
  fs : FS
  trace : List Event
  out : Except BuildError Unit

/-- The version triple printed by
`'.'.join(map(str, sys.version_info[:3]))` of the candidate
interpreter. -/
structure PyVersion where
  major : Nat
  minor : Nat
  patch : Nat
  deriving DecidableEq, Repr

/-- The string the interpreter reported, as reassembled by the script. -/
def PyVersion.str (v : PyVersion) : String :=
  toString v.major ++ "." ++ toString v.minor ++ "." ++ toString v.patch

/-- Python tuple comparison `(major, minor) < (3, 10)`. -/
def versionBelow (v : PyVersion) : Bool :=
  v.major < 3 || (v.major == 3 && v.minor < 10)

/-- The message of the `RuntimeError` raised by `ensure_python_version`. -/
def versionMismatchMsg (python_cmd : String) (v : PyVersion) : String :=
  "Python 3.10+ is required. Interpreter '" ++ python_cmd ++ "' reports "
    ++ v.str ++ ". Use --python to provide a newer runtime (e.g., pyenv, uv, or Python.org builds)."

/-- `ensure_python_version(python_cmd)` (build.py lines 73-88): query the
interpreter for its version, raise a `RuntimeError` when
`(major, minor) < (3, 10)`. -/
def ensure_python_version (python_cmd : String) (v : PyVersion) :
    List Event × Except BuildError Unit :=
  ([Event.queryVersion python_cmd],
   if versionBelow v then
     Except.error (BuildError.runtimeError (versionMismatchMsg python_cmd v))
   else Except.ok ())

/-- `ensure_backend_sources(args)` (build.py lines 91-119).  When
`--source-path` was not given and `ROOT.parent.parent / "kshana"`
exists, the function first assigns that path onto `args.source_path`
(mutating the namespace).  Then: an explicit source path must exist
(else `FileNotFoundError`), a stale staged tree is removed, and the
source is copied to `BACKEND_SRC_DIR`; with no source path, an existing
staged tree is kept with a notice, and otherwise the remote repository
is cloned, plus a checkout when `args.ref` is truthy and not "main". -/
def ensure_backend_sources (args : Args) (fs : FS) : AcqResult :=
  let args :=
    if args.source_path.isNone && fs LOCAL_CANDIDATE then
      { args with source_path := some LOCAL_CANDIDATE }
    else args
  match args.source_path with
  | some sp =>
      if fs sp = false then
        ⟨args, fs, [], Except.error (BuildError.fileNotFound
          ("Provided source path does not exist: " ++ sp))⟩
      else
        let fs1 := if fs BACKEND_SRC_DIR then fs.set BACKEND_SRC_DIR false else fs
        let t1 := if fs BACKEND_SRC_DIR then [Event.rmtree BACKEND_SRC_DIR] else []
        ⟨args, fs1.set BACKEND_SRC_DIR true,
         t1 ++ [Event.copytree sp BACKEND_SRC_DIR,
                Event.note ("✓ Copied backend from " ++ sp)],
         Except.ok ()⟩
  | none =>
      if fs BACKEND_SRC_DIR then
        ⟨args, fs,
         [Event.note "✓ Existing backend checkout detected. Delete it manually to re-clone."],
         Except.ok ()⟩
      else
        ⟨args, fs.set BACKEND_SRC_DIR true,
         [Event.clone REPO_URL BACKEND_SRC_DIR]
           ++ (if args.ref ≠ "" ∧ args.ref ≠ "main" then [Event.checkout args.ref] else []),
         Except.ok ()⟩

/-- The `python_bin` chosen inside `ensure_venv`: the platform-specific
interpreter layout of the virtual environment (build.py lines 127-131). -/
def venv_python_bin (host : String) : String :=
  if host = "Windows" then VENV_PATH ++ "/Scripts/python.exe"
  else VENV_PATH ++ "/bin/python3"

/-- `ensure_venv(python_cmd)` (build.py lines 122-134): check the
interpreter version, create `.venv` only when absent, resolve the venv
interpreter by platform convention, upgrade packaging tools and install
the pinned requirements. -/
def ensure_venv (python_cmd : String) (v : PyVersion) (host : String) (fs : FS) :
    VenvResult :=
  match ensure_python_version python_cmd v with
  | (t0, Except.error e) => ⟨fs, t0, Except.error e⟩
  | (t0, Except.ok _) =>
      let fs1 := if fs VENV_PATH then fs else fs.set VENV_PATH true
      let t1 :=
        if fs VENV_PATH then ([] : List Event)
        else [Event.venvCreate python_cmd VENV_PATH]
      let python_bin := venv_python_bin host
      ⟨fs1,
       t0 ++ t1
         ++ [Event.pip [python_bin, "-m", "pip", "install", "--upgrade", "pip", "wheel", "setuptools"],
             Event.pip [python_bin, "-m", "pip", "install", "-r", REQUIREMENTS_PATH]],
       Except.ok python_bin⟩

/-- `clean_previous_outputs()` (build.py lines 137-141): remove
`DIST_DIR` then `BUILD_DIR` when they exist. -/
def clean_previous_outputs (fs : FS) : FS × List Event :=
  let fs1 := if fs DIST_DIR then fs.set DIST_DIR false else fs
  let t1 := if fs DIST_DIR then [Event.rmtree DIST_DIR] else []
  let fs2 := if fs1 BUILD_DIR then fs1.set BUILD_DIR false else fs1
  let t2 := if fs1 BUILD_DIR then [Event.rmtree BUILD_DIR] else []
  (fs2, t1 ++ t2)

/-- Python `str.lower()` (the host identifiers involved are ASCII). -/
def str_lower (s : String) : String := String.mk (s.data.map Char.toLower)

/-- Python `str.startswith(p)`. -/
def str_startswith (s p : String) : Bool := List.isPrefixOf p.data s.data

/-- `compute_output_name(args)` (build.py lines 144-152): the explicit
platform, or a bucket of `platform.system().lower()`. -/
def compute_output_name (args : Args) (host : String) : String :=
  if args.platform ≠ "auto" then args.platform
  else
    let system := str_lower host
    if str_startswith system "darwin" then "mac"
    else if str_startswith system "windows" then "win"
    else "linux"

/-- `build_bundle(python_bin, output_suffix)` (build.py lines 155-177):
create the output and work directories (`exist_ok=True`), then invoke
PyInstaller with `PYTHONPATH` pointing at the staged tree. -/
def build_bundle (python_bin : String) (output_suffix : String) (fs : FS) :
    FS × List Event :=
  ((fs.set DIST_DIR true).set BUILD_DIR true,
   [Event.mkdir DIST_DIR, Event.mkdir BUILD_DIR,
    Event.bundler python_bin
      (DIST_DIR ++ "/kshana-backend-" ++ output_suffix)
      BUILD_DIR SPEC_PATH BACKEND_SRC_DIR])

/-- `main()` (build.py lines 180-188): optional clean, acquisition,
provisioning, output naming, build, success notice.  An exception in a
stage aborts the pipeline there. -/
def mainRun (args0 : Args) (v : PyVersion) (host : String) (fs0 : FS) : MainResult :=
  let fs1 := if args0.clean then (clean_previous_outputs fs0).1 else fs0
  let t1 := if args0.clean then (clean_previous_outputs fs0).2 else []
  let a := ensure_backend_sources args0 fs1
  match a.out with
  | Except.error e => ⟨a.args, a.fs, t1 ++ a.trace, Except.error e⟩
  | Except.ok _ =>
      let w := ensure_venv a.args.python v host a.fs
      match w.out with
      | Except.error e => ⟨a.args, w.fs, t1 ++ a.trace ++ w.trace, Except.error e⟩
      | Except.ok python_bin =>
          let suffix := compute_output_name a.args host
          let b := build_bundle python_bin suffix w.fs
          ⟨a.args, b.1,
           t1 ++ a.trace ++ w.trace ++ b.2 ++ [Event.note "✅ Backend bundle created successfully."],
           Except.ok ()⟩

/-- Whether an event is a `git clone`. -/
def Event.isClone : Event → Bool
  | Event.clone _ _ => true
  | _ => false

/-- Whether an event is a `shutil.copytree`. -/
def Event.isCopy : Event → Bool
  | Event.copytree _ _ => true
  | _ => false

/-- Whether an event is a `shutil.rmtree`. -/
def Event.isRmtree : Event → Bool
  | Event.rmtree _ => true
  | _ => false

/-- Whether an event is a `git checkout`. -/
def Event.isCheckout : Event → Bool
  | Event.checkout _ => true
  | _ => false

/-- Whether an event is one of the source-acquisition operations the
spec talks about: a clone, a checkout or a tree copy. -/
def Event.isAcq (e : Event) : Bool := e.isClone || e.isCheckout || e.isCopy

/-- Number of clone operations in a trace. -/
def countClones (t : List Event) : Nat := t.countP (fun e => e.isClone)

/-- Number of tree copies in a trace. -/
def countCopies (t : List Event) : Nat := t.countP (fun e => e.isCopy)

/-!
The runtime entry wrapper (`entry.py`) and the PyInstaller runtime hook
(`pyi_rth_google_adk_tools.py`).
-/

/-- The mutable state the compatibility patch acts on: whether
`from google.adk.tools.agent_tool import AgentTool` succeeds in this
process, whether `hasattr(google.adk.tools, 'AgentTool')` holds, and
how many times an assignment `google.adk.tools.AgentTool = AgentTool`
has been performed. -/
structure AdkToolsState where
  importOk : Bool
  hasAgentTool : Bool
  assignCount : Nat
  deriving DecidableEq, Repr

/-- `_patch_google_adk_tools()` of entry.py (lines 19-32), identical in
logic to the module body of pyi_rth_google_adk_tools.py (lines 11-20):
on import success, assign `AgentTool` onto `google.adk.tools` unless the
attribute is already present; on `ImportError`, swallow and change
nothing. -/
def patch_google_adk_tools (s : AdkToolsState) : AdkToolsState :=
  if s.importOk then
    if s.hasAgentTool then s
    else { s with hasAgentTool := true, assignCount := s.assignCount + 1 }
  else s

/-- The process environment: a partial map from variable name to value. -/
def Env : Type := String → Option String

/-- `os.environ.setdefault(k, v)`: bind `k` to `v` only when `k` is
absent. -/
def Env.setdefault (env : Env) (k v : String) : Env :=
  fun q => if q = k then some ((env k).getD v) else env q

/-- The two `os.environ.setdefault` calls of `main()` in entry.py
(lines 67-68), applied to the process environment as it stands after
path setup and dotenv loading. -/
def entry_host_defaults (env : Env) : Env :=
  (env.setdefault "KSHANA_HOST" "127.0.0.1").setdefault "KSHANA_PUBLIC_HOST" "127.0.0.1"

/-!  Theorems.  First, helper lemmas shared by several claims. -/

theorem FS.set_self (fs : FS) (p : String) (b : Bool) : fs.set p b p = b := by
  simp [FS.set]

theorem FS.set_ne (fs : FS) (p q : String) (b : Bool) (h : q ≠ p) :
    fs.set p b q = fs q := by
  simp [FS.set, h]

theorem build_ne_dist : BUILD_DIR ≠ DIST_DIR := by decide

theorem dist_ne_build : DIST_DIR ≠ BUILD_DIR := by decide

theorem local_ne_dist : LOCAL_CANDIDATE ≠ DIST_DIR := by decide

theorem local_ne_build : LOCAL_CANDIDATE ≠ BUILD_DIR := by decide

theorem backend_ne_dist : BACKEND_SRC_DIR ≠ DIST_DIR := by decide

theorem backend_ne_build : BACKEND_SRC_DIR ≠ BUILD_DIR := by decide

theorem venv_ne_dist : VENV_PATH ≠ DIST_DIR := by decide

theorem venv_ne_build : VENV_PATH ≠ BUILD_DIR := by decide

theorem clean_fst_ne (fs : FS) (p : String) (h1 : p ≠ DIST_DIR) (h2 : p ≠ BUILD_DIR) :
    (clean_previous_outputs fs).1 p = fs p := by
  by_cases hd : fs DIST_DIR = true <;> by_cases hb : fs BUILD_DIR = true <;>
    simp [clean_previous_outputs, hd, hb, FS.set, h1, h2, build_ne_dist]

theorem clean_fst_false (fs : FS) (p : String) (h : fs p = false) :
    (clean_previous_outputs fs).1 p = false := by
  by_cases hd : fs DIST_DIR = true <;> by_cases hb : fs BUILD_DIR = true <;>
    simp [clean_previous_outputs, hd, hb, FS.set, build_ne_dist] <;>
      intros <;> exact h

theorem clean_trace_rmtree (fs : FS) :
    ∀ e ∈ (clean_previous_outputs fs).2, e.isRmtree = true := by
  intro e he
  by_cases hd : fs DIST_DIR = true <;> by_cases hb : fs BUILD_DIR = true <;>
    simp [clean_previous_outputs, hd, hb, FS.set, build_ne_dist] at he <;>
      rcases he with rfl | rfl <;> rfl

theorem clean_noop (fs : FS) (h1 : fs DIST_DIR = false) (h2 : fs BUILD_DIR = false) :
    clean_previous_outputs fs = (fs, []) := by
  simp [clean_previous_outputs, h1, h2]

theorem clean_mem_dist (fs : FS) (h : fs DIST_DIR = true) :
    Event.rmtree DIST_DIR ∈ (clean_previous_outputs fs).2 := by
  simp [clean_previous_outputs, h]

theorem clean_mem_build (fs : FS) (h : fs BUILD_DIR = true) :
    Event.rmtree BUILD_DIR ∈ (clean_previous_outputs fs).2 := by
  by_cases hd : fs DIST_DIR = true <;>
    simp [clean_previous_outputs, hd, h, FS.set, build_ne_dist]

theorem acq_adopt_eq (args : Args) (fs : FS) (h1 : args.source_path = none)
    (h2 : fs LOCAL_CANDIDATE = true) :
    ensure_backend_sources args fs
      = ensure_backend_sources { args with source_path := some LOCAL_CANDIDATE } fs := by
  simp [ensure_backend_sources, h1, h2]

theorem acq_copy_eq (args : Args) (fs : FS) (sp : String)
    (h1 : args.source_path = some sp) (h2 : fs sp = true) :
    ensure_backend_sources args fs =
      ⟨args,
       (if fs BACKEND_SRC_DIR = true then fs.set BACKEND_SRC_DIR false else fs).set
         BACKEND_SRC_DIR true,
       (if fs BACKEND_SRC_DIR = true then [Event.rmtree BACKEND_SRC_DIR] else [])
         ++ [Event.copytree sp BACKEND_SRC_DIR,
             Event.note ("✓ Copied backend from " ++ sp)],
       Except.ok ()⟩ := by
  simp [ensure_backend_sources, h1, h2]

theorem acq_skip_eq (args : Args) (fs : FS) (h1 : args.source_path = none)
    (h2 : fs LOCAL_CANDIDATE = false) (h3 : fs BACKEND_SRC_DIR = true) :
    ensure_backend_sources args fs =
      ⟨args, fs,
       [Event.note "✓ Existing backend checkout detected. Delete it manually to re-clone."],
       Except.ok ()⟩ := by
  simp [ensure_backend_sources, h1, h2, h3]

theorem acq_clone_branch_eq (args : Args) (fs : FS) (h1 : args.source_path = none)
    (h2 : fs LOCAL_CANDIDATE = false) (h3 : fs BACKEND_SRC_DIR = false) :
    ensure_backend_sources args fs =
      ⟨args, fs.set BACKEND_SRC_DIR true,
       Event.clone REPO_URL BACKEND_SRC_DIR
         :: (if args.ref ≠ "" ∧ args.ref ≠ "main" then [Event.checkout args.ref] else []),
       Except.ok ()⟩ := by
  simp [ensure_backend_sources, h1, h2, h3]

theorem acq_missing_eq (args : Args) (fs : FS) (sp : String)
    (h1 : args.source_path = some sp) (h2 : fs sp = false) :
    ensure_backend_sources args fs =
      ⟨args, fs, [],
       Except.error (BuildError.fileNotFound
         ("Provided source path does not exist: " ++ sp))⟩ := by
  simp [ensure_backend_sources, h1, h2]

theorem ensure_venv_below_eq (cmd : String) (v : PyVersion) (host : String) (fs : FS)
    (h : versionBelow v = true) :
    ensure_venv cmd v host fs =
      ⟨fs, [Event.queryVersion cmd],
       Except.error (BuildError.runtimeError (versionMismatchMsg cmd v))⟩ := by
  simp [ensure_venv, ensure_python_version, h]

theorem ensure_venv_ok_eq (cmd : String) (v : PyVersion) (host : String) (fs : FS)
    (h : versionBelow v = false) :
    ensure_venv cmd v host fs =
      ⟨(if fs VENV_PATH = true then fs else fs.set VENV_PATH true),
       Event.queryVersion cmd
         :: ((if fs VENV_PATH = true then ([] : List Event)
              else [Event.venvCreate cmd VENV_PATH])
           ++ [Event.pip [venv_python_bin host, "-m", "pip", "install", "--upgrade",
                 "pip", "wheel", "setuptools"],
               Event.pip [venv_python_bin host, "-m", "pip", "install", "-r",
                 REQUIREMENTS_PATH]]),
       Except.ok (venv_python_bin host)⟩ := by
  by_cases hV : fs VENV_PATH = true <;>
    simp [ensure_venv, ensure_python_version, h, hV]

theorem clean_trace_no_acq (fs : FS) :
    ∀ e ∈ (clean_previous_outputs fs).2, e.isAcq = false := by
  intro e he
  have h := clean_trace_rmtree fs e he
  cases e <;> simp_all [Event.isRmtree, Event.isAcq, Event.isClone, Event.isCheckout,
    Event.isCopy]

theorem clean_no_mkdir (fs : FS) (p : String) :
    Event.mkdir p ∉ (clean_previous_outputs fs).2 := by
  intro hm
  have h := clean_trace_rmtree fs _ hm
  simp [Event.isRmtree] at h

theorem venv_trace_no_acq (cmd : String) (v : PyVersion) (host : String) (fs : FS) :
    ∀ e ∈ (ensure_venv cmd v host fs).trace, e.isAcq = false := by
  intro e he
  cases h : versionBelow v
  · rw [ensure_venv_ok_eq cmd v host fs h] at he
    by_cases hV : fs VENV_PATH = true
    · simp [hV] at he
      rcases he with rfl | rfl | rfl <;> rfl
    · simp [hV] at he
      rcases he with rfl | rfl | rfl | rfl <;> rfl
  · rw [ensure_venv_below_eq cmd v host fs h] at he
    simp at he
    subst he
    rfl

theorem venv_no_mkdir (cmd : String) (v : PyVersion) (host : String) (fs : FS)
    (p : String) : Event.mkdir p ∉ (ensure_venv cmd v host fs).trace := by
  intro hm
  cases h : versionBelow v
  · rw [ensure_venv_ok_eq cmd v host fs h] at hm
    by_cases hV : fs VENV_PATH = true <;> simp [hV] at hm
  · rw [ensure_venv_below_eq cmd v host fs h] at hm
    simp at hm

theorem build_trace_eq (pb sfx : String) (fs : FS) :
    (build_bundle pb sfx fs).2
      = [Event.mkdir DIST_DIR, Event.mkdir BUILD_DIR,
         Event.bundler pb (DIST_DIR ++ "/kshana-backend-" ++ sfx) BUILD_DIR
           SPEC_PATH BACKEND_SRC_DIR] := rfl

theorem build_trace_no_acq (pb sfx : String) (fs : FS) :
    ∀ e ∈ (build_bundle pb sfx fs).2, e.isAcq = false := by
  intro e he
  simp [build_bundle] at he
  rcases he with rfl | rfl | rfl <;> rfl

theorem countClones_eq_zero {t : List Event} (h : ∀ e ∈ t, e.isAcq = false) :
    countClones t = 0 := by
  rw [countClones, List.countP_eq_zero]
  intro e he
  have h2 := h e he
  cases e <;> simp_all [Event.isAcq, Event.isClone, Event.isCheckout, Event.isCopy]

theorem countClones_append (a b : List Event) :
    countClones (a ++ b) = countClones a + countClones b :=
  List.countP_append _ _ _

theorem no_checkout_of_no_acq {t : List Event} (h : ∀ e ∈ t, e.isAcq = false)
    (r : String) : Event.checkout r ∉ t := by
  intro hm
  have h2 := h _ hm
  simp [Event.isAcq, Event.isCheckout] at h2

theorem acq_none_ok (args : Args) (fs : FS) (h : args.source_path = none) :
    (ensure_backend_sources args fs).out = Except.ok () := by
  by_cases hL : fs LOCAL_CANDIDATE = true
  · rw [acq_adopt_eq args fs h hL, acq_copy_eq _ fs LOCAL_CANDIDATE rfl hL]
  · by_cases hB : fs BACKEND_SRC_DIR = true
    · rw [acq_skip_eq args fs h (by simpa using hL) hB]
    · rw [acq_clone_branch_eq args fs h (by simpa using hL) (by simpa using hB)]

theorem acq_no_mkdir (args : Args) (fs : FS) (p : String) :
    Event.mkdir p ∉ (ensure_backend_sources args fs).trace := by
  intro hm
  rcases hsp : args.source_path with _ | sp
  · by_cases hL : fs LOCAL_CANDIDATE = true
    · rw [acq_adopt_eq args fs hsp hL,
        acq_copy_eq _ fs LOCAL_CANDIDATE rfl hL] at hm
      by_cases hB : fs BACKEND_SRC_DIR = true <;> simp [hB] at hm
    · by_cases hB : fs BACKEND_SRC_DIR = true
      · rw [acq_skip_eq args fs hsp (by simpa using hL) hB] at hm
        simp at hm
      · rw [acq_clone_branch_eq args fs hsp (by simpa using hL)
          (by simpa using hB)] at hm
        by_cases hr : (args.ref ≠ "" ∧ args.ref ≠ "main") <;> simp [hr] at hm
  · by_cases hsrc : fs sp = true
    · rw [acq_copy_eq args fs sp hsp hsrc] at hm
      by_cases hB : fs BACKEND_SRC_DIR = true <;> simp [hB] at hm
    · rw [acq_missing_eq args fs sp hsp (by simpa using hsrc)] at hm
      simp at hm

theorem acq_args_eq (args : Args) (fs : FS) :
    (ensure_backend_sources args fs).args
      = (if args.source_path = none ∧ fs LOCAL_CANDIDATE = true
         then { args with source_path := some LOCAL_CANDIDATE } else args) := by
  rcases hsp : args.source_path with _ | sp
  · by_cases hL : fs LOCAL_CANDIDATE = true
    · rw [acq_adopt_eq args fs hsp hL,
        acq_copy_eq _ fs LOCAL_CANDIDATE rfl hL]
      simp [hsp, hL]
    · by_cases hB : fs BACKEND_SRC_DIR = true
      · rw [acq_skip_eq args fs hsp (by simpa using hL) hB]
        simp [hsp, hL]
      · rw [acq_clone_branch_eq args fs hsp (by simpa using hL) (by simpa using hB)]
        simp [hsp, hL]
  · by_cases hsrc : fs sp = true
    · rw [acq_copy_eq args fs sp hsp hsrc]
      simp [hsp]
    · rw [acq_missing_eq args fs sp hsp (by simpa using hsrc)]
      simp [hsp]

theorem mainRun_trace_split (args : Args) (v : PyVersion) (host : String) (fs : FS) :
    ∃ rest, (mainRun args v host fs).trace
        = (if args.clean = true then (clean_previous_outputs fs).2 else [])
          ++ (ensure_backend_sources args
               (if args.clean = true then (clean_previous_outputs fs).1 else fs)).trace
          ++ rest
      ∧ (∀ e ∈ rest, e.isAcq = false) := by
  simp only [mainRun]
  generalize ensure_backend_sources args
      (if args.clean = true then (clean_previous_outputs fs).1 else fs) = a
  rcases ho : a.out with e | u
  · exact ⟨[], by simp [ho], by simp⟩
  · generalize hw0 : ensure_venv a.args.python v host a.fs = w
    rcases hw : w.out with e | pb
    · refine ⟨w.trace, by simp [ho, hw, List.append_assoc], fun e he => ?_⟩
      rw [← hw0] at he
      exact venv_trace_no_acq _ v host _ e he
    · refine ⟨w.trace ++ (build_bundle pb (compute_output_name a.args host) w.fs).2
        ++ [Event.note "✅ Backend bundle created successfully."],
        by simp [ho, hw, List.append_assoc], fun e he => ?_⟩
      rcases List.mem_append.mp he with he | he
      rcases List.mem_append.mp he with he | he
      · rw [← hw0] at he
        exact venv_trace_no_acq _ v host _ e he
      · exact build_trace_no_acq _ _ _ e he
      · simp at he
        subst he
        rfl

theorem mainRun_args_acq (args : Args) (v : PyVersion) (host : String) (fs : FS) :
    (mainRun args v host fs).args
      = (ensure_backend_sources args
          (if args.clean = true then (clean_previous_outputs fs).1 else fs)).args := by
  simp only [mainRun]
  generalize ensure_backend_sources args
      (if args.clean = true then (clean_previous_outputs fs).1 else fs) = a
  rcases ho : a.out with e | u
  · simp [ho]
  · rcases hw : (ensure_venv a.args.python v host a.fs).out with e | pb <;> simp [ho, hw]

/-- C6: with `--source-path P` for a non-existing path P, the workflow
aborts with the missing-source error; the whole trace consists of at
most the clean-step removals (so no venv creation, no pip install, no
mkdir and no bundler invocation), and the venv and staging locations
are untouched. -/
theorem mainRun_missing_source (args : Args) (v : PyVersion) (host : String)
    (fs : FS) (sp : String) (h1 : args.source_path = some sp) (h2 : fs sp = false) :
    (mainRun args v host fs).out
        = Except.error (BuildError.fileNotFound
            ("Provided source path does not exist: " ++ sp))
    ∧ (∀ e ∈ (mainRun args v host fs).trace, e.isRmtree = true)
    ∧ (mainRun args v host fs).fs VENV_PATH = fs VENV_PATH
    ∧ (mainRun args v host fs).fs BACKEND_SRC_DIR = fs BACKEND_SRC_DIR := by
  have hfs1 : (if args.clean = true then (clean_previous_outputs fs).1 else fs) sp
      = false := by
    by_cases hc : args.clean = true
    · rw [if_pos hc]
      exact clean_fst_false fs _ h2
    · rw [if_neg hc]
      exact h2
  have ha := acq_missing_eq args _ sp h1 hfs1
  have hm : mainRun args v host fs =
      ⟨args, (if args.clean = true then (clean_previous_outputs fs).1 else fs),
       (if args.clean = true then (clean_previous_outputs fs).2 else []),
       Except.error (BuildError.fileNotFound
         ("Provided source path does not exist: " ++ sp))⟩ := by
    simp only [mainRun]
    rw [ha]
    simp
  rw [hm]
  refine ⟨rfl, ?_, ?_, ?_⟩
  · intro e he
    dsimp only at he
    by_cases hc : args.clean = true
    · rw [if_pos hc] at he
      exact clean_trace_rmtree fs e he
    · rw [if_neg hc] at he
      simp at he
  · dsimp only
    by_cases hc : args.clean = true
    · rw [if_pos hc]
      exact clean_fst_ne fs _ venv_ne_dist venv_ne_build
    · rw [if_neg hc]
  · dsimp only
    by_cases hc : args.clean = true
    · rw [if_pos hc]
      exact clean_fst_ne fs _ backend_ne_dist backend_ne_build
    · rw [if_neg hc]

/-- C6 witness: a clean invocation with a missing source path fails with
the missing-source error after at most removal events, leaving the venv
and staging tree untouched. -/
theorem mainRun_missing_source_witness :
    (mainRun ⟨some "/nonexistent", "main", "auto", true, "python3"⟩ ⟨3, 12, 0⟩
        "Linux" (fun p => p == DIST_DIR)).out
        = Except.error (BuildError.fileNotFound
            ("Provided source path does not exist: " ++ "/nonexistent"))
    ∧ (∀ e ∈ (mainRun ⟨some "/nonexistent", "main", "auto", true, "python3"⟩
          ⟨3, 12, 0⟩ "Linux" (fun p => p == DIST_DIR)).trace, e.isRmtree = true)
    ∧ (mainRun ⟨some "/nonexistent", "main", "auto", true, "python3"⟩ ⟨3, 12, 0⟩
        "Linux" (fun p => p == DIST_DIR)).fs VENV_PATH
        = (fun p => p == DIST_DIR : FS) VENV_PATH
    ∧ (mainRun ⟨some "/nonexistent", "main", "auto", true, "python3"⟩ ⟨3, 12, 0⟩
        "Linux" (fun p => p == DIST_DIR)).fs BACKEND_SRC_DIR
        = (fun p => p == DIST_DIR : FS) BACKEND_SRC_DIR :=
  mainRun_missing_source ⟨some "/nonexistent", "main", "auto", true, "python3"⟩
    ⟨3, 12, 0⟩ "Linux" (fun p => p == DIST_DIR) "/nonexistent" rfl (by decide)

/-- C9: with `--clean` (and a succeeding pipeline: no explicit source
path, acceptable interpreter version), the trace ends with the two
directory creations immediately followed by the bundler invocation and
success notice; every pre-existing output or intermediate directory was
removed in the earlier part of the trace, which contains no directory
creation; afterwards both directories exist.  When neither directory
pre-exists, the clean step is a no-op. -/
theorem mainRun_clean_rebuild (args : Args) (v : PyVersion) (host : String) (fs : FS)
    (hc : args.clean = true) (hs : args.source_path = none)
    (hv : versionBelow v = false) :
    (∃ pre python_bin suffix,
      (mainRun args v host fs).trace
          = pre ++ [Event.mkdir DIST_DIR, Event.mkdir BUILD_DIR,
                    Event.bundler python_bin (DIST_DIR ++ "/kshana-backend-" ++ suffix)
                      BUILD_DIR SPEC_PATH BACKEND_SRC_DIR,
                    Event.note "✅ Backend bundle created successfully."]
        ∧ (fs DIST_DIR = true → Event.rmtree DIST_DIR ∈ pre)
        ∧ (fs BUILD_DIR = true → Event.rmtree BUILD_DIR ∈ pre)
        ∧ (∀ p, Event.mkdir p ∉ pre))
    ∧ (mainRun args v host fs).fs DIST_DIR = true
    ∧ (mainRun args v host fs).fs BUILD_DIR = true
    ∧ (mainRun args v host fs).out = Except.ok ()
    ∧ (∀ g : FS, g DIST_DIR = false → g BUILD_DIR = false →
        clean_previous_outputs g = (g, [])) := by
  have ho : (ensure_backend_sources args (clean_previous_outputs fs).1).out
      = Except.ok () := acq_none_ok args _ hs
  have hw := ensure_venv_ok_eq
    (ensure_backend_sources args (clean_previous_outputs fs).1).args.python v host
    (ensure_backend_sources args (clean_previous_outputs fs).1).fs hv
  have hwout : (ensure_venv
      (ensure_backend_sources args (clean_previous_outputs fs).1).args.python v host
      (ensure_backend_sources args (clean_previous_outputs fs).1).fs).out
      = Except.ok (venv_python_bin host) := by rw [hw]
  refine ⟨⟨(clean_previous_outputs fs).2
      ++ (ensure_backend_sources args (clean_previous_outputs fs).1).trace
      ++ (ensure_venv
          (ensure_backend_sources args (clean_previous_outputs fs).1).args.python v
          host (ensure_backend_sources args (clean_previous_outputs fs).1).fs).trace,
    venv_python_bin host,
    compute_output_name (ensure_backend_sources args (clean_previous_outputs fs).1).args
      host, ?_, ?_, ?_, ?_⟩, ?_, ?_, ?_, fun g hg1 hg2 => clean_noop g hg1 hg2⟩
  · simp only [mainRun, hc, if_pos, ho, hwout]
    simp [build_bundle, List.append_assoc]
  · intro hd
    exact List.mem_append_left _ (List.mem_append_left _ (clean_mem_dist fs hd))
  · intro hb
    exact List.mem_append_left _ (List.mem_append_left _ (clean_mem_build fs hb))
  · intro p hp
    rcases List.mem_append.mp hp with hp | hp
    rcases List.mem_append.mp hp with hp | hp
    · exact clean_no_mkdir fs p hp
    · exact acq_no_mkdir args _ p hp
    · exact venv_no_mkdir _ v host _ p hp
  · have hfs : (mainRun args v host fs).fs
        = ((ensure_venv
            (ensure_backend_sources args (clean_previous_outputs fs).1).args.python v
            host (ensure_backend_sources args (clean_previous_outputs fs).1).fs).fs.set
              DIST_DIR true).set BUILD_DIR true := by
      simp only [mainRun, hc, if_pos, ho, hwout]
      simp [build_bundle]
    rw [hfs, FS.set_ne _ _ _ _ dist_ne_build, FS.set_self]
  · have hfs : (mainRun args v host fs).fs
        = ((ensure_venv
            (ensure_backend_sources args (clean_previous_outputs fs).1).args.python v
            host (ensure_backend_sources args (clean_previous_outputs fs).1).fs).fs.set
              DIST_DIR true).set BUILD_DIR true := by
      simp only [mainRun, hc, if_pos, ho, hwout]
      simp [build_bundle]
    rw [hfs, FS.set_self]
  · simp only [mainRun, hc, if_pos, ho, hwout]

/-- C9 witness: a clean build over a filesystem where only the output
directory pre-exists removes it, recreates both directories and invokes
the bundler. -/
theorem mainRun_clean_rebuild_witness :
    (∃ pre python_bin suffix,
      (mainRun ⟨none, "main", "auto", true, "python3"⟩ ⟨3, 12, 0⟩ "Linux"
          (fun p => p == DIST_DIR)).trace
          = pre ++ [Event.mkdir DIST_DIR, Event.mkdir BUILD_DIR,
                    Event.bundler python_bin (DIST_DIR ++ "/kshana-backend-" ++ suffix)
                      BUILD_DIR SPEC_PATH BACKEND_SRC_DIR,
                    Event.note "✅ Backend bundle created successfully."]
        ∧ ((fun p => p == DIST_DIR : FS) DIST_DIR = true →
            Event.rmtree DIST_DIR ∈ pre)
        ∧ ((fun p => p == DIST_DIR : FS) BUILD_DIR = true →
            Event.rmtree BUILD_DIR ∈ pre)
        ∧ (∀ p, Event.mkdir p ∉ pre))
    ∧ (mainRun ⟨none, "main", "auto", true, "python3"⟩ ⟨3, 12, 0⟩ "Linux"
        (fun p => p == DIST_DIR)).fs DIST_DIR = true
    ∧ (mainRun ⟨none, "main", "auto", true, "python3"⟩ ⟨3, 12, 0⟩ "Linux"
        (fun p => p == DIST_DIR)).fs BUILD_DIR = true
    ∧ (mainRun ⟨none, "main", "auto", true, "python3"⟩ ⟨3, 12, 0⟩ "Linux"
        (fun p => p == DIST_DIR)).out = Except.ok ()
    ∧ (∀ g : FS, g DIST_DIR = false → g BUILD_DIR = false →
        clean_previous_outputs g = (g, [])) :=
  mainRun_clean_rebuild ⟨none, "main", "auto", true, "python3"⟩ ⟨3, 12, 0⟩ "Linux"
    (fun p => p == DIST_DIR) rfl rfl (by decide)

/-- C7: the platform-suffix computation returns the explicit platform
argument unchanged whenever it is not "auto"; when it is "auto", the
suffix is "mac" if the lowercased host operating system identifier
starts with "darwin", "win" if it starts with "windows", and "linux"
for every other value. -/
theorem compute_output_name_correct (args : Args) (host : String) :
    (args.platform ≠ "auto" → compute_output_name args host = args.platform)
    ∧ (args.platform = "auto" →
        (str_startswith (str_lower host) "darwin" = true →
          compute_output_name args host = "mac")
        ∧ (str_startswith (str_lower host) "darwin" = false →
            str_startswith (str_lower host) "windows" = true →
              compute_output_name args host = "win")
        ∧ (str_startswith (str_lower host) "darwin" = false →
            str_startswith (str_lower host) "windows" = false →
              compute_output_name args host = "linux")) := by
  unfold compute_output_name
  refine ⟨fun h => by simp [h],
    fun h => ⟨fun hd => by simp [h, hd],
      fun hd hw => by simp [h, hd, hw],
      fun hd hw => by simp [h, hd, hw]⟩⟩

/-- C7 witness: at concrete inputs, an explicit platform is returned
unchanged and a "Darwin" host in auto mode yields "mac". -/
theorem compute_output_name_correct_witness :
    compute_output_name ⟨none, "main", "win", false, "python3"⟩ "Darwin" = "win"
    ∧ compute_output_name ⟨none, "main", "auto", false, "python3"⟩ "Darwin" = "mac" :=
  ⟨(compute_output_name_correct ⟨none, "main", "win", false, "python3"⟩ "Darwin").1
     (by decide),
   ((compute_output_name_correct ⟨none, "main", "auto", false, "python3"⟩ "Darwin").2
     rfl).1 (by decide)⟩

/-- C8: the compatibility patch is idempotent: a second run changes
nothing, so after two runs in one process the symbol has been assigned
exactly once starting from an unpatched state with a working import;
and when the import fails, the state is left entirely unchanged. -/
theorem patch_google_adk_tools_idempotent :
    (∀ s : AdkToolsState,
      patch_google_adk_tools (patch_google_adk_tools s) = patch_google_adk_tools s)
    ∧ (∀ (has : Bool) (n : Nat),
        patch_google_adk_tools ⟨false, has, n⟩ = ⟨false, has, n⟩)
    ∧ (patch_google_adk_tools (patch_google_adk_tools ⟨true, false, 0⟩)).assignCount = 1
    ∧ (patch_google_adk_tools (patch_google_adk_tools ⟨true, false, 0⟩)).hasAgentTool
        = true := by
  refine ⟨fun s => ?_, fun has n => ?_, rfl, rfl⟩
  · rcases s with ⟨ok, has, n⟩
    cases ok <;> cases has <;> simp [patch_google_adk_tools]
  · simp [patch_google_adk_tools]

/-- C10: each of the two networking variables is defaulted to the
loopback address only when unset; operator-supplied values are
preserved, and no other variable is touched. -/
theorem entry_host_defaults_correct (env : Env) :
    (env "KSHANA_HOST" = none →
      entry_host_defaults env "KSHANA_HOST" = some "127.0.0.1")
    ∧ (∀ v, env "KSHANA_HOST" = some v →
        entry_host_defaults env "KSHANA_HOST" = some v)
    ∧ (env "KSHANA_PUBLIC_HOST" = none →
        entry_host_defaults env "KSHANA_PUBLIC_HOST" = some "127.0.0.1")
    ∧ (∀ v, env "KSHANA_PUBLIC_HOST" = some v →
        entry_host_defaults env "KSHANA_PUBLIC_HOST" = some v)
    ∧ (∀ k, k ≠ "KSHANA_HOST" → k ≠ "KSHANA_PUBLIC_HOST" →
        entry_host_defaults env k = env k) := by
  refine ⟨fun h => by simp [entry_host_defaults, Env.setdefault, h],
    fun v h => by simp [entry_host_defaults, Env.setdefault, h],
    fun h => by simp [entry_host_defaults, Env.setdefault, h],
    fun v h => by simp [entry_host_defaults, Env.setdefault, h],
    fun k h1 h2 => by simp [entry_host_defaults, Env.setdefault, h1, h2]⟩

/-- C10 witness: with the host variable preset to "0.0.0.0" and the
public-host variable unset, the defaults keep the preset value and fill
only the missing one. -/
theorem entry_host_defaults_correct_witness :
    entry_host_defaults
        (fun k => if k = "KSHANA_HOST" then some "0.0.0.0" else none)
        "KSHANA_HOST" = some "0.0.0.0"
    ∧ entry_host_defaults
        (fun k => if k = "KSHANA_HOST" then some "0.0.0.0" else none)
        "KSHANA_PUBLIC_HOST" = some "127.0.0.1" :=
  ⟨(entry_host_defaults_correct _).2.1 "0.0.0.0" (by decide),
   (entry_host_defaults_correct _).2.2.1 (by decide)⟩

/-- C1 counterexample: with no `--source-path`, no staged tree, but a
sibling `kshana` checkout two levels above the script, the workflow
performs zero clone operations (it copies instead), refuting the claim
as stated. -/
theorem mainRun_clone_once_cex :
    countClones (mainRun ⟨none, "main", "auto", false, "python3"⟩ ⟨3, 12, 0⟩ "Linux"
        (fun p => p == LOCAL_CANDIDATE)).trace = 0 := by decide

/-- C1 (amended): when `--source-path` is not supplied, no staged tree
exists, and additionally no sibling `kshana` directory exists two levels
above the script, the workflow performs exactly one clone (into the
staging directory); a checkout happens only for a revision other than
"main", and does happen for every nonempty revision other than
"main". -/
theorem mainRun_clone_once (args : Args) (v : PyVersion) (host : String) (fs : FS)
    (h1 : args.source_path = none) (h2 : fs LOCAL_CANDIDATE = false)
    (h3 : fs BACKEND_SRC_DIR = false) :
    countClones (mainRun args v host fs).trace = 1
    ∧ Event.clone REPO_URL BACKEND_SRC_DIR ∈ (mainRun args v host fs).trace
    ∧ (∀ r, Event.checkout r ∈ (mainRun args v host fs).trace →
        r = args.ref ∧ args.ref ≠ "main")
    ∧ (args.ref ≠ "" → args.ref ≠ "main" →
        Event.checkout args.ref ∈ (mainRun args v host fs).trace) := by
  obtain ⟨rest, htr, hrest⟩ := mainRun_trace_split args v host fs
  have hL1 : (if args.clean = true then (clean_previous_outputs fs).1 else fs)
      LOCAL_CANDIDATE = false := by
    by_cases hc : args.clean = true
    · rw [if_pos hc]
      exact clean_fst_false fs _ h2
    · rw [if_neg hc]
      exact h2
  have hB1 : (if args.clean = true then (clean_previous_outputs fs).1 else fs)
      BACKEND_SRC_DIR = false := by
    by_cases hc : args.clean = true
    · rw [if_pos hc]
      exact clean_fst_false fs _ h3
    · rw [if_neg hc]
      exact h3
  rw [acq_clone_branch_eq args _ h1 hL1 hB1] at htr
  dsimp only at htr
  have ht1 : ∀ e ∈ (if args.clean = true then (clean_previous_outputs fs).2 else []),
      e.isAcq = false := by
    by_cases hc : args.clean = true
    · rw [if_pos hc]
      exact clean_trace_no_acq fs
    · rw [if_neg hc]
      intro e he
      simp at he
  refine ⟨?_, ?_, ?_, ?_⟩
  · rw [htr, countClones_append, countClones_append, countClones_eq_zero ht1,
      countClones_eq_zero hrest]
    by_cases hr : (args.ref ≠ "" ∧ args.ref ≠ "main") <;>
      simp [hr, countClones, List.countP_cons, Event.isClone]
  · rw [htr]
    simp
  · intro r hm
    rw [htr] at hm
    rcases List.mem_append.mp hm with hm | hm
    rcases List.mem_append.mp hm with hm | hm
    · exact absurd hm (no_checkout_of_no_acq ht1 r)
    · by_cases hr : (args.ref ≠ "" ∧ args.ref ≠ "main")
      · simp [hr] at hm
        exact ⟨hm, hr.2⟩
      · simp [hr] at hm
    · exact absurd hm (no_checkout_of_no_acq hrest r)
  · intro hne hnm
    rw [htr]
    have hmem : Event.checkout args.ref
        ∈ Event.clone REPO_URL BACKEND_SRC_DIR
          :: (if args.ref ≠ "" ∧ args.ref ≠ "main" then [Event.checkout args.ref]
              else []) := by
      simp [hne, hnm]
    exact List.mem_append_left _ (List.mem_append_right _ hmem)

/-- C1 witness: a fresh run (no sibling, no staged tree, `--ref v1.2`,
`--clean`) clones exactly once and checks out the requested revision. -/
theorem mainRun_clone_once_witness :
    countClones (mainRun ⟨none, "v1.2", "auto", true, "python3"⟩ ⟨3, 12, 0⟩ "Darwin"
        (fun _ => false)).trace = 1
    ∧ Event.clone REPO_URL BACKEND_SRC_DIR
        ∈ (mainRun ⟨none, "v1.2", "auto", true, "python3"⟩ ⟨3, 12, 0⟩ "Darwin"
            (fun _ => false)).trace
    ∧ (∀ r, Event.checkout r
          ∈ (mainRun ⟨none, "v1.2", "auto", true, "python3"⟩ ⟨3, 12, 0⟩ "Darwin"
              (fun _ => false)).trace →
        r = "v1.2" ∧ ("v1.2" : String) ≠ "main")
    ∧ (("v1.2" : String) ≠ "" → ("v1.2" : String) ≠ "main" →
        Event.checkout "v1.2"
          ∈ (mainRun ⟨none, "v1.2", "auto", true, "python3"⟩ ⟨3, 12, 0⟩ "Darwin"
              (fun _ => false)).trace) :=
  mainRun_clone_once ⟨none, "v1.2", "auto", true, "python3"⟩ ⟨3, 12, 0⟩ "Darwin"
    (fun _ => false) rfl rfl rfl

/-- C2 counterexample: with a staged tree present and no
`--source-path`, but a sibling `kshana` checkout present, acquisition
performs a copy (after deleting the staged tree) rather than the claimed
idempotent skip. -/
theorem acq_skip_no_work_cex :
    countCopies (ensure_backend_sources ⟨none, "main", "auto", false, "python3"⟩
        (fun p => p == LOCAL_CANDIDATE || p == BACKEND_SRC_DIR)).trace = 1
    ∧ Event.rmtree BACKEND_SRC_DIR
        ∈ (ensure_backend_sources ⟨none, "main", "auto", false, "python3"⟩
            (fun p => p == LOCAL_CANDIDATE || p == BACKEND_SRC_DIR)).trace := by
  constructor <;> decide

/-- C2 (amended): when `--source-path` is not supplied, a staged tree
exists, and additionally no sibling `kshana` directory exists two levels
above the script, acquisition performs no clone and no copy, leaves the
filesystem exactly as it was, and only prints the informational
notice. -/
theorem acq_skip_no_work (args : Args) (fs : FS) (h1 : args.source_path = none)
    (h2 : fs LOCAL_CANDIDATE = false) (h3 : fs BACKEND_SRC_DIR = true) :
    ensure_backend_sources args fs =
      ⟨args, fs,
       [Event.note "✓ Existing backend checkout detected. Delete it manually to re-clone."],
       Except.ok ()⟩
    ∧ countClones (ensure_backend_sources args fs).trace = 0
    ∧ countCopies (ensure_backend_sources args fs).trace = 0 := by
  have he := acq_skip_eq args fs h1 h2 h3
  refine ⟨he, ?_, ?_⟩ <;> rw [he] <;> rfl

/-- C2 witness: with only the staged tree present, acquisition returns
the skip notice and changes nothing. -/
theorem acq_skip_no_work_witness :
    ensure_backend_sources ⟨none, "main", "auto", false, "python3"⟩
        (fun p => p == BACKEND_SRC_DIR) =
      ⟨⟨none, "main", "auto", false, "python3"⟩, (fun p => p == BACKEND_SRC_DIR),
       [Event.note "✓ Existing backend checkout detected. Delete it manually to re-clone."],
       Except.ok ()⟩
    ∧ countClones (ensure_backend_sources ⟨none, "main", "auto", false, "python3"⟩
        (fun p => p == BACKEND_SRC_DIR)).trace = 0
    ∧ countCopies (ensure_backend_sources ⟨none, "main", "auto", false, "python3"⟩
        (fun p => p == BACKEND_SRC_DIR)).trace = 0 :=
  acq_skip_no_work ⟨none, "main", "auto", false, "python3"⟩
    (fun p => p == BACKEND_SRC_DIR) rfl (by decide) (by decide)

/-- C3: when `--source-path` is not supplied but the sibling `kshana`
directory two levels above the script exists, acquisition adopts it as
the source path, deletes any existing staged tree, re-copies from the
sibling, performs no clone, and does not take the skip branch,
regardless of whether a staged tree existed. -/
theorem acq_sibling_adoption (args : Args) (fs : FS)
    (h1 : args.source_path = none) (h2 : fs LOCAL_CANDIDATE = true) :
    (ensure_backend_sources args fs).args.source_path = some LOCAL_CANDIDATE
    ∧ (ensure_backend_sources args fs).trace
        = (if fs BACKEND_SRC_DIR = true then [Event.rmtree BACKEND_SRC_DIR] else [])
          ++ [Event.copytree LOCAL_CANDIDATE BACKEND_SRC_DIR,
              Event.note ("✓ Copied backend from " ++ LOCAL_CANDIDATE)]
    ∧ (ensure_backend_sources args fs).out = Except.ok ()
    ∧ (ensure_backend_sources args fs).fs BACKEND_SRC_DIR = true
    ∧ countClones (ensure_backend_sources args fs).trace = 0 := by
  have he : ensure_backend_sources args fs =
      ⟨{ args with source_path := some LOCAL_CANDIDATE },
       (if fs BACKEND_SRC_DIR = true then fs.set BACKEND_SRC_DIR false else fs).set
         BACKEND_SRC_DIR true,
       (if fs BACKEND_SRC_DIR = true then [Event.rmtree BACKEND_SRC_DIR] else [])
         ++ [Event.copytree LOCAL_CANDIDATE BACKEND_SRC_DIR,
             Event.note ("✓ Copied backend from " ++ LOCAL_CANDIDATE)],
       Except.ok ()⟩ := by
    rw [acq_adopt_eq args fs h1 h2]
    exact acq_copy_eq _ fs LOCAL_CANDIDATE rfl h2
  rw [he]
  dsimp only
  refine ⟨rfl, rfl, rfl, FS.set_self _ _ _, ?_⟩
  by_cases hB : fs BACKEND_SRC_DIR = true <;>
    simp [hB, countClones, List.countP_cons, Event.isClone]

/-- C3 witness: with the sibling checkout and a pre-existing staged
tree, acquisition deletes the staged tree and copies from the
sibling. -/
theorem acq_sibling_adoption_witness :
    (ensure_backend_sources ⟨none, "main", "auto", false, "python3"⟩
        (fun p => p == LOCAL_CANDIDATE || p == BACKEND_SRC_DIR)).args.source_path
      = some LOCAL_CANDIDATE
    ∧ (ensure_backend_sources ⟨none, "main", "auto", false, "python3"⟩
        (fun p => p == LOCAL_CANDIDATE || p == BACKEND_SRC_DIR)).trace
        = (if (fun p => p == LOCAL_CANDIDATE || p == BACKEND_SRC_DIR) BACKEND_SRC_DIR
              = true
           then [Event.rmtree BACKEND_SRC_DIR] else [])
          ++ [Event.copytree LOCAL_CANDIDATE BACKEND_SRC_DIR,
              Event.note ("✓ Copied backend from " ++ LOCAL_CANDIDATE)]
    ∧ (ensure_backend_sources ⟨none, "main", "auto", false, "python3"⟩
        (fun p => p == LOCAL_CANDIDATE || p == BACKEND_SRC_DIR)).out = Except.ok ()
    ∧ (ensure_backend_sources ⟨none, "main", "auto", false, "python3"⟩
        (fun p => p == LOCAL_CANDIDATE || p == BACKEND_SRC_DIR)).fs BACKEND_SRC_DIR
        = true
    ∧ countClones (ensure_backend_sources ⟨none, "main", "auto", false, "python3"⟩
        (fun p => p == LOCAL_CANDIDATE || p == BACKEND_SRC_DIR)).trace = 0 :=
  acq_sibling_adoption ⟨none, "main", "auto", false, "python3"⟩
    (fun p => p == LOCAL_CANDIDATE || p == BACKEND_SRC_DIR) rfl (by decide)

/-- C4 counterexample: with no `--source-path` and the sibling `kshana`
directory present, the pipeline mutates the configuration record:
`source_path` is `None` after parsing but set afterwards, refuting the
claim that the record is never mutated. -/
theorem mainRun_args_frame_cex :
    (mainRun ⟨none, "main", "auto", false, "python3"⟩ ⟨3, 12, 0⟩ "Linux"
        (fun p => p == LOCAL_CANDIDATE)).args.source_path ≠ none := by decide

/-- C4 (amended): after the pipeline the configuration record equals the
parsed one except that acquisition overwrites `source_path` with the
sibling checkout path exactly when no `--source-path` was supplied and
that sibling exists; in particular `ref`, `platform`, `clean` and
`python` are never mutated. -/
theorem mainRun_args_frame (args : Args) (v : PyVersion) (host : String) (fs : FS) :
    (mainRun args v host fs).args
      = (if args.source_path = none ∧ fs LOCAL_CANDIDATE = true
         then { args with source_path := some LOCAL_CANDIDATE } else args) := by
  rw [mainRun_args_acq, acq_args_eq]
  have hL : (if args.clean = true then (clean_previous_outputs fs).1 else fs)
      LOCAL_CANDIDATE = fs LOCAL_CANDIDATE := by
    by_cases hc : args.clean = true
    · rw [if_pos hc]
      exact clean_fst_ne fs _ local_ne_dist local_ne_build
    · rw [if_neg hc]
  rw [hL]

/-- C5: for every interpreter reporting a version below 3.10 (any patch
level), provisioning stops at the version query with a `RuntimeError`
whose message names the interpreter and its reported version; the
filesystem is returned unchanged, so the virtual environment was not
created. -/
theorem ensure_venv_version_mismatch (python_cmd : String) (v : PyVersion)
    (host : String) (fs : FS)
    (h : v.major < 3 ∨ (v.major = 3 ∧ v.minor < 10)) :
    ensure_venv python_cmd v host fs =
      ⟨fs, [Event.queryVersion python_cmd],
       Except.error (BuildError.runtimeError (versionMismatchMsg python_cmd v))⟩
    ∧ ∃ a b c, versionMismatchMsg python_cmd v
        = a ++ python_cmd ++ b ++ v.str ++ c := by
  have hb : versionBelow v = true := by
    simp [versionBelow]
    omega
  constructor
  · simp [ensure_venv, ensure_python_version, hb]
  · exact ⟨"Python 3.10+ is required. Interpreter '", "' reports ",
      ". Use --python to provide a newer runtime (e.g., pyenv, uv, or Python.org builds).",
      by simp [versionMismatchMsg, String.append_assoc]⟩

/-- C5 witness: a 3.9.18 interpreter is rejected without creating the
environment. -/
theorem ensure_venv_version_mismatch_witness :
    ensure_venv "python3" ⟨3, 9, 18⟩ "Linux" (fun _ => false) =
      ⟨fun _ => false, [Event.queryVersion "python3"],
       Except.error (BuildError.runtimeError (versionMismatchMsg "python3" ⟨3, 9, 18⟩))⟩
    ∧ ∃ a b c, versionMismatchMsg "python3" ⟨3, 9, 18⟩
        = a ++ "python3" ++ b ++ (PyVersion.str ⟨3, 9, 18⟩) ++ c :=
  ensure_venv_version_mismatch "python3" ⟨3, 9, 18⟩ "Linux" (fun _ => false)
    (by decide)

end KshanaDesktop
